import Mathlib

/-
  Verification development for the PythonCodeEditor repository's sandboxed
  code-execution subsystem (src/services/code_executor.py and
  src/utils/security.py), shallowly embedded in Lean 4.

  The Python code relies on the `re` module; the fixed regular expressions it
  uses are embedded as abstract syntax trees over a small fueled backtracking
  matcher whose preference order (leftmost match, greedy repetition,
  left-branch-first alternation) mirrors Python's `re`.  External effects
  (subprocess spawning, temp-file allocation) are modelled by an explicit
  oracle plus a threaded system state recording the filesystem, the single
  tracked process handle, and traces of probed and spawned commands.
-/

namespace CodeExec

/-- ASCII lower-casing, used both for case-insensitive regex matching
(`re.IGNORECASE`) and for the `.lower()` calls in the executor.  All strings
handled by the claims are ASCII apart from the status glyphs, which have no
case. -/
def asciiLower (c : Char) : Char :=
  if c.isUpper then Char.ofNat (c.toNat + 32) else c

/-- Python regex `\w` (ASCII model): letters, digits, underscore. -/
def isWordChar (c : Char) : Bool :=
  c.isAlpha || c.isDigit || c = '_'

/-- Python regex `\s` (ASCII model): space, tab, newline, carriage return,
vertical tab, form feed. -/
def isSpaceChar (c : Char) : Bool :=
  c = ' ' || c = '\t' || c = '\n' || c = '\x0d' || c = '\x0b' || c = '\x0c'

/-- Regular-expression abstract syntax: single-character predicates,
concatenation, alternation, greedy Kleene star, numbered capture groups, and
the anchors `^` (multi-line), `$` (multi-line) and `\b`. -/
inductive RE where
  | eps : RE
  | pred : (Char → Bool) → RE
  | seq : RE → RE → RE
  | alt : RE → RE → RE
  | star : RE → RE
  | group : Nat → RE → RE
  | bol : RE
  | eol : RE
  | wb : RE

/-- Matcher state: the character just before the current position (for `^`
and `\b`), the remaining input, and captures recorded so far (latest first). -/
structure MSt where
  prev : Option Char
  rest : List Char
  caps : List (Nat × List Char)

/-- Structural size of a regex, used to compute a sufficient fuel bound. -/
def reSize : RE → Nat
  | .eps => 1
  | .pred _ => 1
  | .seq a b => reSize a + reSize b + 1
  | .alt a b => reSize a + reSize b + 1
  | .star a => reSize a + 1
  | .group _ a => reSize a + 1
  | .bol => 1
  | .eol => 1
  | .wb => 1

/-- Backtracking matcher.  Returns the list of all ways the regex can match a
prefix of `s.rest`, ordered by Python `re` preference: greedy stars try the
longest expansion first, alternation tries the left branch first.  Fuel bounds
the recursion depth; `reFuel` below always provides enough. -/
def matchRE : Nat → RE → MSt → List MSt
  | 0, _, _ => []
  | _ + 1, .eps, s => [s]
  | _ + 1, .pred p, s =>
    match s.rest with
    | [] => []
    | c :: cs => if p c then [⟨some c, cs, s.caps⟩] else []
  | f + 1, .seq a b, s => (matchRE f a s).flatMap (matchRE f b)
  | f + 1, .alt a b, s => matchRE f a s ++ matchRE f b s
  | f + 1, .star a, s =>
    ((matchRE f a s).filter (fun t => t.rest.length < s.rest.length)).flatMap
      (fun t => matchRE f (.star a) t) ++ [s]
  | f + 1, .group n a, s =>
    (matchRE f a s).map (fun t =>
      { t with caps := (n, s.rest.take (s.rest.length - t.rest.length)) :: t.caps })
  | _ + 1, .bol, s => if s.prev = none || s.prev = some '\n' then [s] else []
  | _ + 1, .eol, s => if s.rest.isEmpty || s.rest.head? = some '\n' then [s] else []
  | _ + 1, .wb, s =>
    let pw := match s.prev with | some c => isWordChar c | none => false
    let nw := match s.rest.head? with | some c => isWordChar c | none => false
    if pw != nw then [s] else []

/-- Fuel sufficient for `matchRE`: along any recursion path, every star
iteration consumes at least one input character and every other step descends
the regex structure. -/
def reFuel (r : RE) (n : Nat) : Nat :=
  (reSize r + 2) * (n + 2)

/-- Try to match `r` at the current position; `some` holds the preferred
(Python-first) match. -/
def tryMatch (r : RE) (prev : Option Char) (rest : List Char) : Option MSt :=
  (matchRE (reFuel r rest.length) r ⟨prev, rest, []⟩).head?

/-- First match of `r` at the leftmost possible position, like `re.search`. -/
def searchM (r : RE) (prev : Option Char) (rest : List Char) : Option MSt :=
  match tryMatch r prev rest with
  | some m => some m
  | none =>
    match rest with
    | [] => none
    | c :: cs => searchM r (some c) cs

/-- Boolean form of `re.search pattern s`. -/
def reSearch (r : RE) (s : String) : Bool :=
  (searchM r none s.data).isSome

/-- Capture lookup; an unmatched group yields the empty string, as
`re.findall` reports unmatched groups as `""`. -/
def capLookup (caps : List (Nat × List Char)) (n : Nat) : List Char :=
  match caps.find? (fun p => p.fst = n) with
  | some p => p.snd
  | none => []

/-- All non-overlapping matches of `r`, scanning left to right, returning the
capture list of each match — the engine behind `re.findall`. -/
def findAllFrom (r : RE) (prev : Option Char) (rest : List Char) :
    Nat → List (List (Nat × List Char))
  | 0 => []
  | fuel + 1 =>
    match tryMatch r prev rest with
    | some m =>
      if m.rest.length < rest.length then
        m.caps :: findAllFrom r m.prev m.rest fuel
      else
        m.caps ::
          (match rest with
           | [] => []
           | c :: cs => findAllFrom r (some c) cs fuel)
    | none =>
      match rest with
      | [] => []
      | c :: cs => findAllFrom r (some c) cs fuel

/-- `re.findall pattern s`, as a list of capture environments. -/
def reFindAll (r : RE) (s : String) : List (List (Nat × List Char)) :=
  findAllFrom r none s.data (s.data.length + 1)

/-- Replace every non-overlapping match of `r` by `repl` — `re.sub`. -/
def subFrom (r : RE) (repl : List Char) (prev : Option Char) (rest : List Char) :
    Nat → List Char
  | 0 => rest
  | fuel + 1 =>
    match tryMatch r prev rest with
    | some m =>
      if m.rest.length < rest.length then
        repl ++ subFrom r repl m.prev m.rest fuel
      else
        match rest with
        | [] => repl
        | c :: cs => repl ++ c :: subFrom r repl (some c) cs fuel
    | none =>
      match rest with
      | [] => []
      | c :: cs => c :: subFrom r repl (some c) cs fuel

/-- `re.sub pattern repl s` for a constant replacement string. -/
def reSub (r : RE) (repl : String) (s : String) : String :=
  ⟨subFrom r repl.data none s.data (s.data.length + 1)⟩

/-- Single literal character, case-sensitive. -/
def rlit (c : Char) : RE := .pred (fun d => d = c)

/-- Single literal character under `re.IGNORECASE`. -/
def rlitCI (c : Char) : RE := .pred (fun d => asciiLower d = asciiLower c)

/-- Literal string (concatenation of case-sensitive literals). -/
def rstrL : List Char → RE
  | [] => .eps
  | c :: cs => .seq (rlit c) (rstrL cs)

def rstr (s : String) : RE := rstrL s.data

/-- Literal string under `re.IGNORECASE`. -/
def rstrCIL : List Char → RE
  | [] => .eps
  | c :: cs => .seq (rlitCI c) (rstrCIL cs)

def rstrCI (s : String) : RE := rstrCIL s.data

/-- Concatenation of a pattern list. -/
def rcat : List RE → RE
  | [] => .eps
  | r :: rs => .seq r (rcat rs)

/-- Greedy `?`. -/
def ropt (a : RE) : RE := .alt a .eps

/-- Greedy `+`. -/
def rplus (a : RE) : RE := .seq a (.star a)

/-- `\s` -/
def rWS : RE := .pred isSpaceChar
/-- `\s*` -/
def rWSstar : RE := .star rWS
/-- `\s+` -/
def rWSplus : RE := rplus rWS
/-- `\w` -/
def rW : RE := .pred isWordChar
/-- `\w+` -/
def rWplus : RE := rplus rW
/-- `\d` -/
def rD : RE := .pred Char.isDigit
/-- `.` — any character except newline. -/
def rDot : RE := .pred (fun c => c ≠ '\n')

/-- Does `needle` start `hay`? -/
def listStartsWith : List Char → List Char → Bool
  | [], _ => true
  | _ :: _, [] => false
  | n :: ns, h :: hs => n = h && listStartsWith ns hs

/-- Does `needle` occur anywhere in `hay`?  Models Python's `in` on strings. -/
def containsSub (needle : List Char) : List Char → Bool
  | [] => listStartsWith needle []
  | c :: hs => listStartsWith needle (c :: hs) || containsSub needle hs

/-- Python `str.lower()` (ASCII model). -/
def lowerStr (s : String) : String := ⟨s.data.map asciiLower⟩

/-! ## SecurityManager (src/utils/security.py)

Each denylist entry is kept as a pair of the original Python regex source text
(used verbatim by `get_security_violations` when reporting) and its embedding
as an `RE`. -/

/-- Denylist pattern `\bNAME\s*\(` (with `re.IGNORECASE`). -/
def callPat (name : String) : RE := rcat [.wb, rstrCI name, rWSstar, rlit '(']

/-- Denylist pattern `NAME\s*\(` without a word boundary (with
`re.IGNORECASE`). -/
def callPatNB (name : String) : RE := rcat [rstrCI name, rWSstar, rlit '(']

/-- `SecurityManager.dangerous_patterns["python"]`. -/
def pythonPatterns : List (String × RE) :=
  [ ("\\beval\\s*\\(", callPat "eval"),
    ("\\bexec\\s*\\(", callPat "exec"),
    ("\\b__import__\\s*\\(", callPat "__import__"),
    ("\\bgetattr\\s*\\(", callPat "getattr"),
    ("\\bsetattr\\s*\\(", callPat "setattr"),
    ("\\bdelattr\\s*\\(", callPat "delattr"),
    ("\\bglobals\\s*\\(", callPat "globals"),
    ("\\blocals\\s*\\(", callPat "locals"),
    ("\\bvars\\s*\\(", callPat "vars"),
    ("\\bdir\\s*\\(", callPat "dir"),
    ("\\bopen\\s*\\(", callPat "open"),
    ("subprocess\\.", rcat [rstrCI "subprocess", rlit '.']),
    ("os\\.", rcat [rstrCI "os", rlit '.']),
    ("sys\\.", rcat [rstrCI "sys", rlit '.']),
    ("\\bfile\\s*\\(", callPat "file"),
    ("\\binput\\s*\\(", callPat "input"),
    ("\\braw_input\\s*\\(", callPat "raw_input"),
    ("import\\s+os", rcat [rstrCI "import", rWSplus, rstrCI "os"]),
    ("import\\s+sys", rcat [rstrCI "import", rWSplus, rstrCI "sys"]),
    ("import\\s+subprocess", rcat [rstrCI "import", rWSplus, rstrCI "subprocess"]),
    ("from\\s+os\\s+import", rcat [rstrCI "from", rWSplus, rstrCI "os", rWSplus, rstrCI "import"]),
    ("from\\s+sys\\s+import", rcat [rstrCI "from", rWSplus, rstrCI "sys", rWSplus, rstrCI "import"]),
    ("from\\s+subprocess\\s+import",
      rcat [rstrCI "from", rWSplus, rstrCI "subprocess", rWSplus, rstrCI "import"]) ]

/-- `SecurityManager.dangerous_patterns["javascript"]`. -/
def javascriptPatterns : List (String × RE) :=
  [ ("\\beval\\s*\\(", callPat "eval"),
    ("Function\\s*\\(", callPatNB "Function"),
    ("setTimeout\\s*\\(", callPatNB "setTimeout"),
    ("setInterval\\s*\\(", callPatNB "setInterval"),
    ("document\\.write\\s*\\(", rcat [rstrCI "document.write", rWSstar, rlit '(']),
    ("innerHTML\\s*=", rcat [rstrCI "innerHTML", rWSstar, rlit '=']),
    ("outerHTML\\s*=", rcat [rstrCI "outerHTML", rWSstar, rlit '=']),
    ("location\\.", rcat [rstrCI "location", rlit '.']),
    ("window\\.", rcat [rstrCI "window", rlit '.']),
    ("XMLHttpRequest", rstrCI "XMLHttpRequest"),
    ("fetch\\s*\\(", callPatNB "fetch"),
    ("require\\s*\\(", callPatNB "require") ]

/-- `SecurityManager.dangerous_patterns["java"]`. -/
def javaPatterns : List (String × RE) :=
  [ ("Runtime\\.getRuntime\\s*\\(\\)",
      rcat [rstrCI "Runtime.getRuntime", rWSstar, rlit '(', rlit ')']),
    ("ProcessBuilder", rstrCI "ProcessBuilder"),
    ("System\\.exit\\s*\\(", rcat [rstrCI "System.exit", rWSstar, rlit '(']),
    ("Class\\.forName\\s*\\(", rcat [rstrCI "Class.forName", rWSstar, rlit '(']),
    ("Method\\.invoke\\s*\\(", rcat [rstrCI "Method.invoke", rWSstar, rlit '(']),
    ("java\\.io\\.File", rstrCI "java.io.File"),
    ("java\\.nio\\.file", rstrCI "java.nio.file"),
    ("java\\.lang\\.reflect", rstrCI "java.lang.reflect"),
    ("java\\.net\\.URL", rstrCI "java.net.URL"),
    ("java\\.net\\.Socket", rstrCI "java.net.Socket") ]

/-- `SecurityManager.dangerous_patterns["cpp"]`. -/
def cppPatterns : List (String × RE) :=
  [ ("system\\s*\\(", callPatNB "system"),
    ("exec\\s*\\(", callPatNB "exec"),
    ("popen\\s*\\(", callPatNB "popen"),
    ("#include\\s*<cstdlib>", rcat [rstrCI "#include", rWSstar, rstrCI "<cstdlib>"]),
    ("#include\\s*<unistd\\.h>", rcat [rstrCI "#include", rWSstar, rstrCI "<unistd.h>"]),
    ("#include\\s*<sys/", rcat [rstrCI "#include", rWSstar, rstrCI "<sys/"]),
    ("malloc\\s*\\(", callPatNB "malloc"),
    ("free\\s*\\(", callPatNB "free"),
    ("delete\\s+", rcat [rstrCI "delete", rWSplus]),
    ("new\\s+\\w+\\[", rcat [rstrCI "new", rWSplus, rWplus, rlit '[']) ]

/-- `self.dangerous_patterns.get(language, [])`. -/
def dangerousPatterns (lang : String) : List (String × RE) :=
  if lang = "python" then pythonPatterns
  else if lang = "javascript" then javascriptPatterns
  else if lang = "java" then javaPatterns
  else if lang = "cpp" then cppPatterns
  else []

/-- `self.allowed_imports["python"]`. -/
def allowedImportsPython : List String :=
  ["math", "random", "datetime", "json", "urllib", "hashlib",
   "base64", "itertools", "functools", "collections", "typing",
   "dataclasses", "enum", "decimal", "fractions"]

/-- `self.allowed_imports["javascript"]` (present in the source; not consulted
by `is_code_safe`, whose import check only inspects Python and C++ code). -/
def allowedImportsJavascript : List String :=
  ["Math", "Date", "JSON", "Array", "Object", "String", "Number", "Boolean"]

/-- `SecurityManager._contains_dangerous_patterns`: any denylist pattern for
the language matches the code (patterns compiled with
`re.IGNORECASE | re.MULTILINE`). -/
def containsDangerousPatterns (code lang : String) : Bool :=
  (dangerousPatterns lang).any (fun pr => reSearch pr.snd code)

/-- The regex `^(?:from\s+(\w+(?:\.\w+)*)\s+)?import\s+(.+)$` used with
`re.MULTILINE` by `_are_imports_safe` for Python code. -/
def importRe : RE :=
  rcat [ .bol,
         ropt (rcat [rstr "from", rWSplus,
                     .group 1 (rcat [rWplus, RE.star (rcat [rlit '.', rWplus])]),
                     rWSplus]),
         rstr "import", rWSplus,
         .group 2 (rplus rDot),
         .eol ]

/-- The regex `#include\s*[<"]([^>"]+)[>"]` used by `_are_imports_safe` for
C++ code. -/
def includeRe : RE :=
  rcat [rstr "#include", rWSstar, .pred (fun c => c = '<' || c = '"'),
        .group 1 (rplus (.pred (fun c => c ≠ '>' && c ≠ '"'))),
        .pred (fun c => c = '>' || c = '"')]

/-- Python `s.split(".")[0]`. -/
def splitDotHead (s : List Char) : List Char := s.takeWhile (fun c => c ≠ '.')

/-- The `dangerous_modules` set in `_are_imports_safe`. -/
def dangerousModules : List String :=
  ["os", "sys", "subprocess", "importlib", "__builtin__",
   "ctypes", "marshal", "pickle", "shelve", "socket",
   "urllib2", "httplib", "ftplib", "telnetlib", "smtplib"]

/-- The `dangerous_includes` set in `_are_imports_safe`. -/
def dangerousIncludes : List String :=
  ["cstdlib", "unistd.h", "sys/", "windows.h", "winbase.h"]

/-- Body of the per-import check in `_are_imports_safe` (Python branch):
`base_module = (module or items.split(".")[0]).split(".")[0]`, then the import
is unsafe exactly when the base module is outside both the allowlist and the
neutral set and falls in `dangerous_modules`. -/
def pythonImportOk (caps : List (Nat × List Char)) : Bool :=
  let module := capLookup caps 1
  let items := capLookup caps 2
  let base : String := ⟨splitDotHead (if module.isEmpty then splitDotHead items else module)⟩
  if !(allowedImportsPython.contains base) &&
      !((["builtins", "", "typing", "dataclasses", "enum"] : List String).contains base) then
    !(dangerousModules.contains base)
  else
    true

/-- `SecurityManager._are_imports_safe`. -/
def areImportsSafe (code lang : String) : Bool :=
  if lang = "python" then
    (reFindAll importRe code).all pythonImportOk
  else if lang = "cpp" then
    (reFindAll includeRe code).all (fun caps =>
      let inc : List Char := capLookup caps 1
      !(dangerousIncludes.any (fun d => containsSub d.data inc)))
  else
    true

/-- The `dangerous_attrs` patterns in `_is_python_safe` (case-sensitive):
`\.__.*__`, `\.func_code`, `\.gi_code`, `\.cr_code`. -/
def pythonDangerousAttrs : List RE :=
  [ rcat [rlit '.', rstr "__", RE.star rDot, rstr "__"],
    rstr ".func_code",
    rstr ".gi_code",
    rstr ".cr_code" ]

/-- The pattern `\b(compile|eval|exec|globals|locals|vars)\s*\(` in
`_is_python_safe`. -/
def pyBuiltinsRe : RE :=
  rcat [.wb,
        .group 1 (.alt (rstr "compile") (.alt (rstr "eval") (.alt (rstr "exec")
          (.alt (rstr "globals") (.alt (rstr "locals") (rstr "vars")))))),
        rWSstar, rlit '(']

/-- `SecurityManager._is_python_safe`. -/
def isPythonSafe (code : String) : Bool :=
  if pythonDangerousAttrs.any (fun r => reSearch r code) then false
  else if reSearch pyBuiltinsRe code then false
  else true

/-- `SecurityManager._is_javascript_safe`: rejects `\.prototype\s*[=\[]` and
`\.constructor`. -/
def isJavascriptSafe (code : String) : Bool :=
  if reSearch (rcat [rstr ".prototype", rWSstar, .pred (fun c => c = '=' || c = '[')]) code then
    false
  else if reSearch (rstr ".constructor") code then false
  else true

/-- `SecurityManager._is_java_safe`: rejects `\.getClass\s*\(\)` and
`\bnative\s+`. -/
def isJavaSafe (code : String) : Bool :=
  if reSearch (rcat [rstr ".getClass", rWSstar, rlit '(', rlit ')']) code then false
  else if reSearch (rcat [.wb, rstr "native", rWSplus]) code then false
  else true

/-- `SecurityManager._is_cpp_safe`: rejects `\*\s*\(\s*\w+\s*\+` and
(case-insensitively) `asm\s*\(`. -/
def isCppSafe (code : String) : Bool :=
  if reSearch (rcat [rlit '*', rWSstar, rlit '(', rWSstar, rWplus, rWSstar, rlit '+']) code then
    false
  else if reSearch (rcat [rstrCI "asm", rWSstar, rlit '(']) code then false
  else true

/-- Body of `SecurityManager.is_code_safe`, parametrised over the sub-checks
so that the behaviour of the surrounding `try`/`except` block can be stated
for checks that raise.  Mirrors the source's sequence of short-circuiting
returns: dangerous patterns, then imports, then the 10000-character length
limit, then the language-specific residual check. -/
def is_code_safeBodyWith (dang imp : String → String → Except String Bool)
    (pyck jsck jack cppck : String → Except String Bool)
    (code lang : String) : Except String Bool :=
  match dang code lang with
  | .error e => .error e
  | .ok true => .ok false
  | .ok false =>
    match imp code lang with
    | .error e => .error e
    | .ok false => .ok false
    | .ok true =>
      if code.length > 10000 then .ok false
      else if lang = "python" then pyck code
      else if lang = "javascript" then jsck code
      else if lang = "java" then jack code
      else if lang = "cpp" then cppck code
      else .ok true

/-- The `try`/`except` wrapper of `is_code_safe`: any exception escaping the
body makes the check return `False` (fail closed). -/
def is_code_safeWith (dang imp : String → String → Except String Bool)
    (pyck jsck jack cppck : String → Except String Bool)
    (code lang : String) : Bool :=
  match is_code_safeBodyWith dang imp pyck jsck jack cppck code lang with
  | .ok b => b
  | .error _ => false

/-- `SecurityManager.is_code_safe`, with the actual (total, pure) sub-checks
plugged in. -/
def is_code_safe (code lang : String) : Bool :=
  is_code_safeWith
    (fun c l => .ok (containsDangerousPatterns c l))
    (fun c l => .ok (areImportsSafe c l))
    (fun c => .ok (isPythonSafe c))
    (fun c => .ok (isJavascriptSafe c))
    (fun c => .ok (isJavaSafe c))
    (fun c => .ok (isCppSafe c))
    code lang

/-- `SecurityManager.get_security_violations`: reports only denylist-pattern
matches and the length limit. -/
def getSecurityViolations (code lang : String) : List String :=
  let fromPatterns := (dangerousPatterns lang).filterMap
    (fun pr => if reSearch pr.snd code then
                 some ("Dangerous pattern detected: " ++ pr.fst)
               else none)
  if code.length > 10000 then fromPatterns ++ ["Code too long (>10KB)"]
  else fromPatterns

/-- `re.sub` pattern `/[/\w.-]+` in `sanitize_output`. -/
def pathRe1 : RE :=
  rcat [rlit '/', rplus (.pred (fun c => c = '/' || isWordChar c || c = '.' || c = '-'))]

/-- `re.sub` pattern `[A-Za-z]:\\[\\w.-]+` in `sanitize_output`.  Note that in
the source the character class escapes the backslash, so it matches only a
backslash, the letter w, a dot or a dash. -/
def pathRe2 : RE :=
  rcat [.pred (fun c => c.isUpper || c.isLower), rlit ':', rlit '\\',
        rplus (.pred (fun c => c = '\\' || c = 'w' || c = '.' || c = '-'))]

/-- `\d{1,3}`, greedy. -/
def rep13 : RE := rcat [rD, ropt (rcat [rD, ropt rD])]

/-- The IP-address pattern `\b\d{1,3}\.\d{1,3}\.\d{1,3}\.\d{1,3}\b` in
`sanitize_output`. -/
def ipRe : RE :=
  rcat [.wb, rep13, rlit '.', rep13, rlit '.', rep13, rlit '.', rep13, .wb]

/-- `SecurityManager.sanitize_output`: scrub path-shaped and IP-shaped
substrings, then cap the length at 5000 characters plus a truncation
marker. -/
def sanitizeOutput (output : String) : String :=
  let o1 := reSub pathRe1 "[PATH_REMOVED]" output
  let o2 := reSub pathRe2 "[PATH_REMOVED]" o1
  let o3 := reSub ipRe "[IP_REMOVED]" o2
  if o3.length > 5000 then ⟨o3.data.take 5000⟩ ++ "\n... [Output truncated for security]"
  else o3

/-! ## CodeExecutor (src/services/code_executor.py)

The executor's interaction with the operating system is modelled by an
`Oracle` (what `--version` probes report, what each spawned command does,
which temp names `tempfile` hands out and whether temp allocation raises) and
a threaded `Sys` state (existing filesystem paths, the single tracked process
handle `current_process`, and traces of probed commands, spawn attempts and
killed pids). -/

/-- Outcome of one `subprocess.Popen` + `communicate` cycle, as observed by
`_run_with_limits`: normal exit with combined stdout+stderr text, a
`TimeoutExpired`, or an exception from `Popen` itself. -/
inductive RunOutcome where
  | exited : Int → String → RunOutcome
  | timedOut : RunOutcome
  | spawnError : String → RunOutcome

/-- Environment oracle. `avail` is the outcome of `_check_command_available`'s
probe; `run` gives the behaviour of a spawned command (with its working
directory); `tmpName` is the name supply of `tempfile`; `tmpFail` makes the
n-th temp allocation raise the given message. -/
structure Oracle where
  avail : String → Bool
  run : List String → Option String → RunOutcome
  tmpName : Nat → String
  tmpFail : Nat → Option String

/-- System state threaded through the executor. -/
structure Sys where
  fs : List String
  currentProcess : Option Nat
  tmpCounter : Nat
  pidCounter : Nat
  probed : List String
  spawnAttempts : List (List String)
  killed : List Nat
deriving DecidableEq, Repr

/-- The executor's initial state: empty filesystem model, no tracked
process. -/
def initSys : Sys :=
  { fs := [], currentProcess := none, tmpCounter := 0, pidCounter := 0,
    probed := [], spawnAttempts := [], killed := [] }

/-- `CodeExecutor.stop_execution`: if a process handle is tracked, kill its
tree (any `psutil` exception is swallowed) and clear the handle; otherwise do
nothing. -/
def stopExecution (st : Sys) : Sys :=
  match st.currentProcess with
  | none => st
  | some pid => { st with currentProcess := none, killed := st.killed ++ [pid] }

/-- `CodeExecutor._check_command_available`: probe `command --version` with a
5-second timeout; every exception means unavailable. -/
def checkCommandAvailable (o : Oracle) (st : Sys) (cmd : String) : Bool × Sys :=
  (o.avail cmd, { st with probed := st.probed ++ [cmd] })

/-- `CodeExecutor._run_with_limits`: spawn the command, record it in
`current_process`, wait with the timeout, and format the result string; the
`finally` block clears `current_process` on every path.  The source formats
success as `"✅ Execution completed:\n" + output` when the output is
non-empty (Python truthiness) and `"✅ Execution completed (no output)"`
otherwise. -/
def runWithLimits (o : Oracle) (st : Sys) (cmd : List String) (cwd : Option String) :
    String × Sys :=
  let st1 := { st with spawnAttempts := st.spawnAttempts ++ [cmd] }
  match o.run cmd cwd with
  | .spawnError e =>
    ("❌ Process execution error: " ++ e, { st1 with currentProcess := none })
  | .timedOut =>
    let pid := st1.pidCounter
    ("❌ Execution timeout - process killed",
     { st1 with pidCounter := pid + 1, killed := st1.killed ++ [pid],
                currentProcess := none })
  | .exited c out =>
    ((if c = 0 then
        (if out = "" then "✅ Execution completed (no output)"
         else "✅ Execution completed:\n" ++ out)
      else
        "⚠️ Execution completed with errors (exit code " ++ toString c ++ "):\n" ++ out),
     { st1 with pidCounter := st1.pidCounter + 1, currentProcess := none })

/-- A `tempfile.NamedTemporaryFile(delete=False)` / `tempfile.mkdtemp` call:
either raises (per the oracle) or yields a fresh path, which is added to the
filesystem. -/
def mkTempArtifact (o : Oracle) (st : Sys) (sfx : String) :
    Except String (String × Sys) :=
  match o.tmpFail st.tmpCounter with
  | some e => .error e
  | none =>
    let path := o.tmpName st.tmpCounter ++ sfx
    .ok (path, { st with fs := st.fs ++ [path], tmpCounter := st.tmpCounter + 1 })

/-- `os.unlink` wrapped in `try`/`except: pass`. -/
def removePath (st : Sys) (p : String) : Sys :=
  { st with fs := st.fs.filter (fun q => q ≠ p) }

/-- `shutil.rmtree(d, ignore_errors=True)`: removes the directory and
everything below it. -/
def rmtreeDir (st : Sys) (d : String) : Sys :=
  { st with fs := st.fs.filter (fun q => !(q = d || listStartsWith (d ++ "/").data q.data)) }

/-- `CodeExecutor._extract_java_class_name`: group 1 of
`public\s+class\s+(\w+)`. -/
def extractJavaClassName (code : String) : Option String :=
  match searchM (rcat [rstr "public", rWSplus, rstr "class", rWSplus, .group 1 rWplus])
      none code.data with
  | some m => some ⟨capLookup m.caps 1⟩
  | none => none

/-- `CodeExecutor._execute_python`: write the code to a fresh `.py` temp file,
run `python3` on it, then unlink the file.  The only fallible step in the
model is temp allocation; its exception is caught by the driver's own
`except` clause. -/
def executePython (o : Oracle) (st : Sys) (_code : String) : String × Sys :=
  match mkTempArtifact o st ".py" with
  | .error e => ("❌ Python execution error: " ++ e, st)
  | .ok (tf, st1) =>
    let (res, st2) := runWithLimits o st1 ["python3", tf] none
    (res, removePath st2 tf)

/-- `CodeExecutor._execute_javascript`: probe `node`, then write a `.js` temp
file, run it, and unlink it. -/
def executeJavascript (o : Oracle) (st : Sys) (_code : String) : String × Sys :=
  let (ok1, st1) := checkCommandAvailable o st "node"
  if !ok1 then ("❌ Node.js not available for JavaScript execution", st1)
  else
    match mkTempArtifact o st1 ".js" with
    | .error e => ("❌ JavaScript execution error: " ++ e, st1)
    | .ok (tf, st2) =>
      let (res, st3) := runWithLimits o st2 ["node", tf] none
      (res, removePath st3 tf)

/-- `CodeExecutor._execute_java`: probe `javac` (and, only if that succeeds,
`java`), extract the public class name, write `<name>.java` inside a fresh
temp directory, compile, and — when the compile result does not contain
"error" — run the class and remove the directory.  On the compile-error
branch the source returns before `shutil.rmtree`. -/
def executeJava (o : Oracle) (st : Sys) (code : String) : String × Sys :=
  let (a1, st1) := checkCommandAvailable o st "javac"
  if !a1 then ("❌ Java compiler/runtime not available", st1)
  else
    let (a2, st2) := checkCommandAvailable o st1 "java"
    if !a2 then ("❌ Java compiler/runtime not available", st2)
    else
      match extractJavaClassName code with
      | none => ("❌ Could not find public class in Java code", st2)
      | some cn =>
        match mkTempArtifact o st2 "" with
        | .error e => ("❌ Java execution error: " ++ e, st2)
        | .ok (td, st3) =>
          let jf := td ++ "/" ++ cn ++ ".java"
          let st4 := { st3 with fs := st3.fs ++ [jf] }
          let (cres, st5) := runWithLimits o st4 ["javac", jf] (some td)
          if containsSub "error".data (lowerStr cres).data then
            ("❌ Compilation error:\n" ++ cres, st5)
          else
            let (res, st6) := runWithLimits o st5 ["java", "-cp", td, cn] (some td)
            (res, rmtreeDir st6 td)

/-- `CodeExecutor._execute_cpp`: probe `g++`, allocate a `.cpp` temp file and
an executable temp file, compile, and — when the (non-empty) compile result
does not contain "error" — run the executable and unlink both files.  On the
compile-error branch the source returns before the unlinks; if allocating the
executable file raises, the already-created source file is likewise left
behind by the `except` path. -/
def executeCpp (o : Oracle) (st : Sys) (_code : String) : String × Sys :=
  let (a1, st1) := checkCommandAvailable o st "g++"
  if !a1 then ("❌ g++ compiler not available", st1)
  else
    match mkTempArtifact o st1 ".cpp" with
    | .error e => ("❌ C++ execution error: " ++ e, st1)
    | .ok (cf, st2) =>
      match mkTempArtifact o st2 "" with
      | .error e => ("❌ C++ execution error: " ++ e, st2)
      | .ok (ef, st3) =>
        let (cres, st4) := runWithLimits o st3 ["g++", "-o", ef, cf] none
        if cres ≠ "" && containsSub "error".data (lowerStr cres).data then
          ("❌ Compilation error:\n" ++ cres, st4)
        else
          let (res, st5) := runWithLimits o st4 [ef] none
          (res, removePath (removePath st5 cf) ef)

/-- A language driver as seen from `execute_code`'s `try` block: it may
either produce a result and a new state or raise. -/
def DriverFn : Type :=
  Oracle → Sys → String → Except String (String × Sys)

/-- Body of `CodeExecutor.execute_code` after `stop_execution`, parametrised
over the four drivers: the security gate, then the language dispatch, then
the unsupported-language fallback. -/
def executeBodyWith (pyD jsD jaD cpD : DriverFn) (o : Oracle) (st1 : Sys)
    (code lang : String) : Except String (String × Sys) :=
  if !(is_code_safe code lang) then
    .ok ("❌ Code execution blocked: Security policy violation", st1)
  else if lang = "python" then pyD o st1 code
  else if lang = "javascript" then jsD o st1 code
  else if lang = "java" then jaD o st1 code
  else if lang = "cpp" then cpD o st1 code
  else .ok ("❌ Execution not supported for " ++ lang, st1)

/-- `CodeExecutor.execute_code`, parametrised over the drivers: stop any
running process, run the body, and convert any escaping exception into the
coordinator's internal-error result string. -/
def executeCodeWith (pyD jsD jaD cpD : DriverFn) (o : Oracle) (st : Sys)
    (code lang : String) : String × Sys :=
  let st1 := stopExecution st
  match executeBodyWith pyD jsD jaD cpD o st1 code lang with
  | .ok r => r
  | .error e => ("❌ Execution error: " ++ e, st1)

/-- `CodeExecutor.execute_code` with the actual drivers plugged in. -/
def executeCode (o : Oracle) (st : Sys) (code lang : String) : String × Sys :=
  executeCodeWith
    (fun o st c => .ok (executePython o st c))
    (fun o st c => .ok (executeJavascript o st c))
    (fun o st c => .ok (executeJava o st c))
    (fun o st c => .ok (executeCpp o st c))
    o st code lang

/-! ## Helper lemmas -/

/-- `stop_execution` only touches the process handle and the kill trace: the
filesystem and the probe/spawn traces are untouched. -/
theorem stopExecution_frame (st : Sys) :
    (stopExecution st).spawnAttempts = st.spawnAttempts ∧
    (stopExecution st).probed = st.probed ∧
    (stopExecution st).fs = st.fs := by
  cases h : st.currentProcess <;> simp [stopExecution, h]

/-! ## Claim theorems -/

/-- Oracle for the C1 scenario: every toolchain available, and the spawned
interpreter prints a filesystem path. -/
def claim1Oracle : Oracle :=
  { avail := fun _ => true,
    run := fun _ _ => .exited 0 "/etc/passwd\n",
    tmpName := fun n => "tmp" ++ toString n,
    tmpFail := fun _ => none }

/-- Claim C1: refuted on the code — `execute_code` returns the
`_run_with_limits` output verbatim and never invokes
`SecurityManager.sanitize_output`, so a filesystem path printed by the user's
program reaches the caller unscrubbed; applying `sanitize_output` to the
returned string changes it (it would have removed the path). -/
theorem claim1_execute_code_output_not_sanitized :
    (executeCode claim1Oracle initSys "print(1)" "python").1 =
      "✅ Execution completed:\n/etc/passwd\n" ∧
    containsSub "/etc/passwd".data
      (executeCode claim1Oracle initSys "print(1)" "python").1.data = true ∧
    containsSub "/etc/passwd".data
      (sanitizeOutput (executeCode claim1Oracle initSys "print(1)" "python").1).data = false ∧
    sanitizeOutput (executeCode claim1Oracle initSys "print(1)" "python").1 ≠
      (executeCode claim1Oracle initSys "print(1)" "python").1 := by
  refine ⟨by decide, by decide, by decide, by decide⟩

/-- Oracle for the C2 java scenario: `javac` exits 1 with a diagnostic
containing "error". -/
def claim2JavaOracle : Oracle :=
  { avail := fun _ => true,
    run := fun cmd _ =>
      if cmd.head? = some "javac" then
        .exited 1 "Main.java:1: error: reached end of file while parsing"
      else .exited 0 "ok",
    tmpName := fun n => "tmpd" ++ toString n,
    tmpFail := fun _ => none }

/-- Oracle for the C2 C++ scenario: `g++` exits 1 with a diagnostic
containing "error". -/
def claim2CppOracle : Oracle :=
  { avail := fun _ => true,
    run := fun cmd _ =>
      if cmd.head? = some "g++" then
        .exited 1 "main.cpp: error: expected declaration"
      else .exited 0 "ok",
    tmpName := fun n => "tmpd" ++ toString n,
    tmpFail := fun _ => none }

/-- Claim C2: refuted on the code — on the compile-error return path both
`_execute_java` and `_execute_cpp` return before their cleanup code, so the
temporary directory (Java) and the temporary source file and executable (C++)
still exist after the driver returns. -/
theorem claim2_temp_artifacts_leak_on_compile_error :
    ((executeCode claim2JavaOracle initSys "public class Main \x7b" "java").1 =
        "❌ Compilation error:\n⚠️ Execution completed with errors (exit code 1):\nMain.java:1: error: reached end of file while parsing" ∧
      (executeCode claim2JavaOracle initSys "public class Main \x7b" "java").2.fs =
        ["tmpd0", "tmpd0/Main.java"]) ∧
    ((executeCode claim2CppOracle initSys "int main()\x7b" "cpp").1 =
        "❌ Compilation error:\n⚠️ Execution completed with errors (exit code 1):\nmain.cpp: error: expected declaration" ∧
      (executeCode claim2CppOracle initSys "int main()\x7b" "cpp").2.fs =
        ["tmpd0.cpp", "tmpd1"]) := by
  refine ⟨⟨by decide, by decide⟩, ⟨by decide, by decide⟩⟩

/-- Oracle for the C3 counterexample: no toolchain binary is installed, so
spawning `python3` raises. -/
def claim3Oracle : Oracle :=
  { avail := fun _ => false,
    run := fun _ _ => .spawnError "No such file or directory: python3",
    tmpName := fun n => "tmp" ++ toString n,
    tmpFail := fun _ => none }

/-- Claim C3, counterexample: for the python language no `--version` probe is
ever attempted (`_execute_python` calls `_check_command_available` on
nothing), and an absent `python3` binary surfaces as the generic
process-spawn-error message, not an unsupported-language-style message. -/
theorem claim3_python_toolchain_not_probed :
    (executeCode claim3Oracle initSys "print(1)" "python").1 =
      "❌ Process execution error: No such file or directory: python3" ∧
    (executeCode claim3Oracle initSys "print(1)" "python").2.probed = [] := by
  refine ⟨by decide, by decide⟩

/-- Claim C3, amended: the toolchain probe happens for javascript (`node`),
java (`javac`, then `java`) and cpp (`g++`) — when the probed binary is
absent the caller gets the fixed not-available message and no process is
spawned — but not for python. -/
theorem claim3_probe_only_js_java_cpp :
    ∀ (o : Oracle) (st : Sys) (code : String),
      (o.avail "node" = false → is_code_safe code "javascript" = true →
        (executeCode o st code "javascript").1 =
          "❌ Node.js not available for JavaScript execution" ∧
        (executeCode o st code "javascript").2.spawnAttempts = st.spawnAttempts) ∧
      (o.avail "javac" = false → is_code_safe code "java" = true →
        (executeCode o st code "java").1 = "❌ Java compiler/runtime not available" ∧
        (executeCode o st code "java").2.spawnAttempts = st.spawnAttempts) ∧
      (o.avail "javac" = true → o.avail "java" = false → is_code_safe code "java" = true →
        (executeCode o st code "java").1 = "❌ Java compiler/runtime not available" ∧
        (executeCode o st code "java").2.spawnAttempts = st.spawnAttempts) ∧
      (o.avail "g++" = false → is_code_safe code "cpp" = true →
        (executeCode o st code "cpp").1 = "❌ g++ compiler not available" ∧
        (executeCode o st code "cpp").2.spawnAttempts = st.spawnAttempts) := by
  intro o st code
  have hframe := (stopExecution_frame st).1
  refine ⟨?_, ?_, ?_, ?_⟩
  · intro h1 h2
    simp [executeCode, executeCodeWith, executeBodyWith, h2,
      executeJavascript, checkCommandAvailable, h1, hframe]
  · intro h1 h2
    simp [executeCode, executeCodeWith, executeBodyWith, h2,
      executeJava, checkCommandAvailable, h1, hframe]
  · intro h1 h1b h2
    simp [executeCode, executeCodeWith, executeBodyWith, h2,
      executeJava, checkCommandAvailable, h1, h1b, hframe]
  · intro h1 h2
    simp [executeCode, executeCodeWith, executeBodyWith, h2,
      executeCpp, checkCommandAvailable, h1, hframe]

/-- Oracle for the C3 witness: only `javac` is installed. -/
def claim3JavacOnlyOracle : Oracle :=
  { avail := fun c => c = "javac",
    run := fun _ _ => .exited 0 "",
    tmpName := fun n => "tmp" ++ toString n,
    tmpFail := fun _ => none }

/-- Witness for the amended C3 theorem at concrete inputs. -/
theorem claim3_probe_only_js_java_cpp_witness :
    (executeCode claim3Oracle initSys "console.log(1+1)" "javascript").1 =
      "❌ Node.js not available for JavaScript execution" ∧
    (executeCode claim3Oracle initSys "public class Main \x7b" "java").1 =
      "❌ Java compiler/runtime not available" ∧
    (executeCode claim3JavacOnlyOracle initSys "public class Main \x7b" "java").1 =
      "❌ Java compiler/runtime not available" ∧
    (executeCode claim3Oracle initSys "int main()\x7b" "cpp").1 =
      "❌ g++ compiler not available" := by
  refine ⟨?_, ?_, ?_, ?_⟩
  · exact ((claim3_probe_only_js_java_cpp claim3Oracle initSys "console.log(1+1)").1
      rfl (by decide)).1
  · exact ((claim3_probe_only_js_java_cpp claim3Oracle initSys "public class Main \x7b").2.1
      rfl (by decide)).1
  · exact ((claim3_probe_only_js_java_cpp claim3JavacOnlyOracle initSys
      "public class Main \x7b").2.2.1 rfl rfl (by decide)).1
  · exact ((claim3_probe_only_js_java_cpp claim3Oracle initSys "int main()\x7b").2.2.2
      rfl (by decide)).1

/-- Claim C4: every exception raised inside the execution body after the
coordinator's `stop_execution` call is caught at the coordinator boundary and
converted into the internal-error result string — the caller receives a
string, never a fault. -/
theorem claim4_exceptions_converted_at_coordinator :
    ∀ (pyD jsD jaD cpD : DriverFn) (o : Oracle) (st : Sys) (code lang e : String),
      executeBodyWith pyD jsD jaD cpD o (stopExecution st) code lang = .error e →
      (executeCodeWith pyD jsD jaD cpD o st code lang).1 = "❌ Execution error: " ++ e := by
  intro pyD jsD jaD cpD o st code lang e h
  simp [executeCodeWith, h]

/-- A hypothetical driver whose execution raises. -/
def claim4RaisingDriver : DriverFn := fun _ _ _ => .error "boom"

/-- Witness for C4: with a raising python driver the coordinator returns the
converted internal-error string. -/
theorem claim4_exceptions_converted_at_coordinator_witness :
    executeBodyWith claim4RaisingDriver claim4RaisingDriver claim4RaisingDriver
        claim4RaisingDriver claim1Oracle (stopExecution initSys) "x = 1" "python" =
      .error "boom" ∧
    (executeCodeWith claim4RaisingDriver claim4RaisingDriver claim4RaisingDriver
        claim4RaisingDriver claim1Oracle initSys "x = 1" "python").1 =
      "❌ Execution error: boom" := by
  refine ⟨rfl, ?_⟩
  exact claim4_exceptions_converted_at_coordinator claim4RaisingDriver claim4RaisingDriver
    claim4RaisingDriver claim4RaisingDriver claim1Oracle initSys "x = 1" "python" "boom" rfl

/-- Claim C5: any source longer than 10000 characters is rejected by
`is_code_safe`, whatever the language string is — every earlier check in the
body can only short-circuit to a rejection, and the length check itself
rejects before the language dispatch. -/
theorem claim5_long_source_rejected :
    ∀ (code lang : String), code.length > 10000 → is_code_safe code lang = false := by
  intro code lang h
  unfold is_code_safe is_code_safeWith is_code_safeBodyWith
  cases hc : containsDangerousPatterns code lang
  · cases hi : areImportsSafe code lang
    · simp [hc, hi]
    · simp [hc, hi, if_pos h]
  · simp [hc]

/-- A source text of 10001 characters. -/
def longSource : String := ⟨List.replicate 10001 'a'⟩

/-- Witness for C5 at a concrete over-long source and an unsupported
language string. -/
theorem claim5_long_source_rejected_witness :
    longSource.length > 10000 ∧ is_code_safe longSource "weird" = false := by
  have hlen : longSource.length = 10001 := by
    show (List.replicate 10001 'a').length = 10001
    rw [List.length_replicate]
  have hgt : longSource.length > 10000 := by omega
  exact ⟨hgt, claim5_long_source_rejected longSource "weird" hgt⟩

def pyHello : String := "print(\"Hello, World!\")"
def jsHello : String := "console.log(\"Hello, World!\")"
def javaHello : String :=
  "public class Main \x7b public static void main(String[] a)\x7bSystem.out.println(\"hi\");\x7d \x7d"
def cppHello : String := "#include <iostream>\nint main()\x7bstd::cout<<\"x\";\x7d"

/-- Claim C6: any source matching a denylist pattern of its language is
rejected by `is_code_safe`; in particular python source `import os` is
rejected and `execute_code` spawns no process for it; and the minimal hello
world of each supported language is accepted. -/
theorem claim6_denylist_rejects_hello_accepted :
    (∀ (lang code : String), containsDangerousPatterns code lang = true →
        is_code_safe code lang = false) ∧
    is_code_safe "import os" "python" = false ∧
    (∀ (o : Oracle) (st : Sys),
        (executeCode o st "import os" "python").1 =
          "❌ Code execution blocked: Security policy violation" ∧
        (executeCode o st "import os" "python").2.spawnAttempts = st.spawnAttempts) ∧
    is_code_safe pyHello "python" = true ∧
    is_code_safe jsHello "javascript" = true ∧
    is_code_safe javaHello "java" = true ∧
    is_code_safe cppHello "cpp" = true := by
  have hunsafe : is_code_safe "import os" "python" = false := by decide
  refine ⟨?_, hunsafe, ?_, by decide, by decide, by decide, by decide⟩
  · intro lang code hc
    unfold is_code_safe is_code_safeWith is_code_safeBodyWith
    simp [hc]
  · intro o st
    have hframe := (stopExecution_frame st).1
    constructor
    · simp [executeCode, executeCodeWith, executeBodyWith, hunsafe]
    · simp [executeCode, executeCodeWith, executeBodyWith, hunsafe, hframe]

/-- Witness for C6 at the concrete denylisted input. -/
theorem claim6_denylist_rejects_hello_accepted_witness :
    containsDangerousPatterns "import os" "python" = true ∧
    is_code_safe "import os" "python" = false :=
  ⟨by decide, claim6_denylist_rejects_hello_accepted.1 "python" "import os" (by decide)⟩

/-- Claim C7: the `try`/`except` wrapper of `is_code_safe` fails closed — if
any sub-check raises, the result is `False`.  The check itself is a pure
predicate: in this embedding it is a plain function of the source text and
language, with no oracle or state parameter. -/
theorem claim7_check_exception_fails_closed :
    ∀ (dang imp : String → String → Except String Bool)
      (pyck jsck jack cppck : String → Except String Bool) (code lang e : String),
      is_code_safeBodyWith dang imp pyck jsck jack cppck code lang = .error e →
      is_code_safeWith dang imp pyck jsck jack cppck code lang = false := by
  intro dang imp pyck jsck jack cppck code lang e h
  unfold is_code_safeWith
  rw [h]

/-- A hypothetical sub-check that raises. -/
def claim7RaisingCheck : String → String → Except String Bool :=
  fun _ _ => .error "check failure"

/-- A trivially accepting sub-check. -/
def claim7OkCheck : String → Except String Bool := fun _ => .ok true

/-- Witness for C7: with a raising pattern check, `is_code_safe` returns
`False`. -/
theorem claim7_check_exception_fails_closed_witness :
    is_code_safeBodyWith claim7RaisingCheck claim7RaisingCheck claim7OkCheck claim7OkCheck
        claim7OkCheck claim7OkCheck "print(1)" "python" = .error "check failure" ∧
    is_code_safeWith claim7RaisingCheck claim7RaisingCheck claim7OkCheck claim7OkCheck
        claim7OkCheck claim7OkCheck "print(1)" "python" = false :=
  ⟨rfl, claim7_check_exception_fails_closed claim7RaisingCheck claim7RaisingCheck
    claim7OkCheck claim7OkCheck claim7OkCheck claim7OkCheck "print(1)" "python"
    "check failure" rfl⟩

/-- Claim C8: the `_run_with_limits` result string follows the formatting
contract — exit 0 with output, exit 0 without output, non-zero exit, timeout,
and spawn failure each produce their fixed prefix and payload. -/
theorem claim8_run_with_limits_formatting :
    ∀ (o : Oracle) (st : Sys) (cmd : List String) (cwd : Option String)
      (n : Int) (out e : String),
      (o.run cmd cwd = .exited 0 out → out ≠ "" →
        (runWithLimits o st cmd cwd).1 = "✅ Execution completed:\n" ++ out) ∧
      (o.run cmd cwd = .exited 0 "" →
        (runWithLimits o st cmd cwd).1 = "✅ Execution completed (no output)") ∧
      (o.run cmd cwd = .exited n out → n ≠ 0 →
        (runWithLimits o st cmd cwd).1 =
          "⚠️ Execution completed with errors (exit code " ++ toString n ++ "):\n" ++ out) ∧
      (o.run cmd cwd = .timedOut →
        (runWithLimits o st cmd cwd).1 = "❌ Execution timeout - process killed") ∧
      (o.run cmd cwd = .spawnError e →
        (runWithLimits o st cmd cwd).1 = "❌ Process execution error: " ++ e) := by
  intro o st cmd cwd n out e
  refine ⟨?_, ?_, ?_, ?_, ?_⟩
  · intro h hne
    simp [runWithLimits, h, hne]
  · intro h
    simp [runWithLimits, h]
  · intro h hne
    simp [runWithLimits, h, hne]
  · intro h
    simp [runWithLimits, h]
  · intro h
    simp [runWithLimits, h]

/-- Oracle for the C8 witness: five one-word commands exercising the five
outcome shapes. -/
def claim8Oracle : Oracle :=
  { avail := fun _ => true,
    run := fun cmd _ =>
      if cmd = ["s"] then .exited 0 "hi"
      else if cmd = ["z"] then .exited 0 ""
      else if cmd = ["f"] then .exited 2 "bad"
      else if cmd = ["t"] then .timedOut
      else .spawnError "nofile",
    tmpName := fun n => "tmp" ++ toString n,
    tmpFail := fun _ => none }

/-- Witness for C8 at the five concrete outcomes. -/
theorem claim8_run_with_limits_formatting_witness :
    (runWithLimits claim8Oracle initSys ["s"] none).1 = "✅ Execution completed:\nhi" ∧
    (runWithLimits claim8Oracle initSys ["z"] none).1 = "✅ Execution completed (no output)" ∧
    (runWithLimits claim8Oracle initSys ["f"] none).1 =
      "⚠️ Execution completed with errors (exit code 2):\nbad" ∧
    (runWithLimits claim8Oracle initSys ["t"] none).1 = "❌ Execution timeout - process killed" ∧
    (runWithLimits claim8Oracle initSys ["x"] none).1 = "❌ Process execution error: nofile" := by
  refine ⟨?_, ?_, ?_, ?_, ?_⟩
  · exact (claim8_run_with_limits_formatting claim8Oracle initSys ["s"] none 2 "hi" "nofile").1
      rfl (by decide)
  · exact (claim8_run_with_limits_formatting claim8Oracle initSys ["z"] none 2 "hi"
      "nofile").2.1 rfl
  · exact (claim8_run_with_limits_formatting claim8Oracle initSys ["f"] none 2 "bad"
      "nofile").2.2.1 rfl (by decide)
  · exact (claim8_run_with_limits_formatting claim8Oracle initSys ["t"] none 2 "hi"
      "nofile").2.2.2.1 rfl
  · exact (claim8_run_with_limits_formatting claim8Oracle initSys ["x"] none 2 "hi"
      "nofile").2.2.2.2 rfl

/-- Claim C9: `stop_execution` on an idle coordinator is a no-op (and cannot
raise — it is a total function), it always leaves the coordinator idle, and
calling it twice in a row from any state equals calling it once. -/
theorem claim9_stop_execution_idempotent :
    ∀ (st : Sys),
      (st.currentProcess = none → stopExecution st = st) ∧
      stopExecution (stopExecution st) = stopExecution st ∧
      (stopExecution st).currentProcess = none := by
  intro st
  refine ⟨?_, ?_, ?_⟩
  · intro h
    simp [stopExecution, h]
  · cases h : st.currentProcess <;> simp [stopExecution, h]
  · cases h : st.currentProcess <;> simp [stopExecution, h]

/-- Witness for C9 at the concrete idle state. -/
theorem claim9_stop_execution_idempotent_witness :
    initSys.currentProcess = none ∧ stopExecution initSys = initSys :=
  ⟨rfl, (claim9_stop_execution_idempotent initSys).1 rfl⟩

/-- Claim C10: there are rejected programs with an empty violation report —
`x.__class__` (caught by the dunder residual check) and `import pickle`
(caught by the dangerous-module import check) are both rejected by
`is_code_safe`, yet `get_security_violations`, which only reports
denylist-pattern matches and the length limit, returns no violations for
them. -/
theorem claim10_rejected_with_no_violations :
    is_code_safe "x.__class__" "python" = false ∧
    getSecurityViolations "x.__class__" "python" = [] ∧
    is_code_safe "import pickle" "python" = false ∧
    getSecurityViolations "import pickle" "python" = [] := by
  refine ⟨by decide, by decide, by decide, by decide⟩

end CodeExec
